import Mathlib

/-!
Verification of the lawyer-directory enrichment pipeline: the heuristic
field extractors and the merge engine of `website_scraper.py`, and the
template-driven description synthesizer of `description_generator.py`,
shallowly embedded in Lean.  Python dictionaries with optional keys are
modelled as structures of `Option`-typed fields; Python truthiness is made
explicit; the parsed HTML document (an external collaborator) is abstracted
to the texts the modelled extractors consult.
-/

namespace Enrich

/-! ### Python-semantics helpers -/

/-- Truthiness of an optional string (Python: `None` and `""` are falsy). -/
def truthyOS : Option String → Bool
  | none => false
  | some s => s != ""

/-- Truthiness of an optional natural (Python: `None` and `0` are falsy). -/
def truthyON : Option Nat → Bool
  | none => false
  | some n => n != 0

/-- Truthiness of an optional boolean (Python: `None` and `False` are falsy). -/
def truthyOB : Option Bool → Bool
  | none => false
  | some b => b

/-- Truthiness of an optional list (Python: `None` and `[]` are falsy). -/
def truthyOL {α : Type} : Option (List α) → Bool
  | none => false
  | some l => !l.isEmpty

/-- Helper for `pyTitle`: the boolean records whether the previous character
was alphabetic. -/
def pyTitleAux : Bool → List Char → List Char
  | _, [] => []
  | prevAlpha, c :: cs =>
    if c.isAlpha then
      (if prevAlpha then c.toLower else c.toUpper) :: pyTitleAux true cs
    else
      c :: pyTitleAux false cs

/-- Python `str.title()` (exact for the ASCII strings this pipeline handles):
an alphabetic character is uppercased when it follows a non-alphabetic
character and lowercased otherwise. -/
def pyTitle (s : String) : String := ⟨pyTitleAux false s.data⟩

/-- Python `str.lower()` (exact for the ASCII strings this pipeline
handles), implemented by structural recursion over the character list. -/
def strToLower (s : String) : String := ⟨s.data.map Char.toLower⟩

/-- Model of Python `list(set(xs))`: exact-equality deduplication keeping the
first occurrence of each element.  (CPython iterates a set in unspecified
hash order; this model fixes first-occurrence order, and every claim settled
through it is order-insensitive.) -/
def pySet : List String → List String
  | [] => []
  | x :: xs => x :: (pySet xs).filter (fun y => y ≠ x)

/-- Python `needle in hay` on char lists: substring occurrence. -/
def containsSub (needle : List Char) : List Char → Bool
  | [] => needle.isPrefixOf []
  | c :: cs => needle.isPrefixOf (c :: cs) || containsSub needle cs

/-- Python `needle in hay` for strings. -/
def strContains (hay needle : String) : Bool := containsSub needle.data hay.data

/-! ### A small regular-expression fragment

The feature extractor of `website_scraper.py` only uses literal characters,
`\s*`, and single optional characters (`,?`, `/?`), combined by alternation.
`matchAt` is a complete backtracking matcher for that fragment, so
`searchPat` agrees with Python `re.search`-as-boolean on those patterns. -/

inductive Pat : Type
  | lit (c : Char)
  | wsStar
  | optChar (c : Char)

/-- Fueled matching engine.  Every recursive call strictly decreases
`ps.length + ds.length`, so any fuel exceeding that sum makes the fuel
bound unreachable; the fuel only serves to keep the recursion structural
(and hence kernel-reducible). -/
def matchAtF : Nat → List Pat → List Char → Bool
  | 0, _, _ => false
  | _ + 1, [], _ => true
  | _ + 1, .lit _ :: _, [] => false
  | fuel + 1, .lit c :: ps, d :: ds => c == d && matchAtF fuel ps ds
  | fuel + 1, .wsStar :: ps, [] => matchAtF fuel ps []
  | fuel + 1, .wsStar :: ps, d :: ds =>
    matchAtF fuel ps (d :: ds) || (d.isWhitespace && matchAtF fuel (.wsStar :: ps) ds)
  | fuel + 1, .optChar _ :: ps, [] => matchAtF fuel ps []
  | fuel + 1, .optChar c :: ps, d :: ds =>
    (c == d && matchAtF fuel ps ds) || matchAtF fuel ps (d :: ds)

/-- Does the pattern list match some prefix of the character list? -/
def matchAt (ps : List Pat) (cs : List Char) : Bool :=
  matchAtF (ps.length + cs.length + 1) ps cs

/-- Does the pattern match starting at any position (Python `re.search`)? -/
def searchPat (ps : List Pat) : List Char → Bool
  | [] => matchAt ps []
  | c :: cs => matchAt ps (c :: cs) || searchPat ps cs

/-- Literal word as a pattern fragment. -/
def litStr (s : String) : List Pat := s.data.map Pat.lit

/-! ### Feature-flag extractor (`_extract_features`) -/

/-- Output shape of `_extract_features`: the Python dict always carries all
five keys with explicit booleans.  The Lean field `avail_24_7` stands for the
Python key `"24_7_available"`. -/
structure Features where
  no_win_no_fee : Bool
  free_consultation : Bool
  home_visits : Bool
  telehealth : Bool
  avail_24_7 : Bool

/-- The items view of the features dict, in Python insertion order. -/
def featuresItems (f : Features) : List (String × Bool) :=
  [("no_win_no_fee", f.no_win_no_fee),
   ("free_consultation", f.free_consultation),
   ("home_visits", f.home_visits),
   ("telehealth", f.telehealth),
   ("24_7_available", f.avail_24_7)]

/-- Pattern `no\s*win\s*no\s*fee`. -/
def patNoWin1 : List Pat :=
  litStr "no" ++ [.wsStar] ++ litStr "win" ++ [.wsStar] ++ litStr "no" ++
    [.wsStar] ++ litStr "fee"

/-- Pattern `no\s*win,?\s*no\s*fee`. -/
def patNoWin2 : List Pat :=
  litStr "no" ++ [.wsStar] ++ litStr "win" ++ [.optChar ','] ++ [.wsStar] ++
    litStr "no" ++ [.wsStar] ++ litStr "fee"

/-- Pattern `free\s*consultation`. -/
def patFree1 : List Pat := litStr "free" ++ [.wsStar] ++ litStr "consultation"

/-- Pattern `complimentary\s*consultation`. -/
def patFree2 : List Pat :=
  litStr "complimentary" ++ [.wsStar] ++ litStr "consultation"

/-- Pattern `home\s*visit`. -/
def patHome1 : List Pat := litStr "home" ++ [.wsStar] ++ litStr "visit"

/-- Pattern `visit\s*you\s*at\s*home`. -/
def patHome2 : List Pat :=
  litStr "visit" ++ [.wsStar] ++ litStr "you" ++ [.wsStar] ++ litStr "at" ++
    [.wsStar] ++ litStr "home"

/-- Pattern `telehealth`. -/
def patTele1 : List Pat := litStr "telehealth"

/-- Pattern `video\s*consultation`. -/
def patTele2 : List Pat := litStr "video" ++ [.wsStar] ++ litStr "consultation"

/-- Pattern `zoom\s*meeting`. -/
def patTele3 : List Pat := litStr "zoom" ++ [.wsStar] ++ litStr "meeting"

/-- Pattern `24\s*/?\s*7`. -/
def pat247a : List Pat :=
  litStr "24" ++ [.wsStar] ++ [.optChar '/'] ++ [.wsStar] ++ litStr "7"

/-- Pattern `24\s*hour`. -/
def pat247b : List Pat := litStr "24" ++ [.wsStar] ++ litStr "hour"

/-- Embedding of `LawyerWebsiteScraper._extract_features`: the document is
abstracted to its page text (`soup.get_text()`), which the source lowercases
before the boolean regex presence tests. -/
def extract_features (pageText : String) : Features :=
  let t := (strToLower pageText).data
  { no_win_no_fee := searchPat patNoWin1 t || searchPat patNoWin2 t
    free_consultation := searchPat patFree1 t || searchPat patFree2 t
    home_visits := searchPat patHome1 t || searchPat patHome2 t
    telehealth := searchPat patTele1 t || searchPat patTele2 t || searchPat patTele3 t
    avail_24_7 := searchPat pat247a t || searchPat pat247b t }

/-! ### Years-of-experience extractor (`_extract_years_experience`)

Pattern 1 is `(\d+)\+?\s*years\s*(of\s*)?experience` and pattern 2 is
`(since|established|founded)\s*(\d{4})`, both searched case-insensitively
(modelled by lowercasing the text once; the patterns' letters are lowercase
and digits are unaffected).  Greedy maximal munch is exact for both patterns
because no continuation can consume a character the preceding quantifier
gave up.  The scan over start positions returns the leftmost match, matching
`re.search`. -/

/-- Numeric value of a digit run. -/
def digitsToNat (ds : List Char) : Nat :=
  ds.foldl (fun a c => a * 10 + (c.toNat - '0'.toNat)) 0

/-- Match pattern `(\d+)\+?\s*years\s*(of\s*)?experience` at the head of the
(lowercased) character list, returning the captured number. -/
def matchYearsAt (cs : List Char) : Option Nat :=
  let ds := cs.takeWhile Char.isDigit
  let rest := cs.dropWhile Char.isDigit
  if ds.isEmpty then none
  else
    let rest1 := match rest with
      | '+' :: r => r
      | r => r
    let rest2 := rest1.dropWhile Char.isWhitespace
    match rest2.dropPrefix? "years".data with
    | none => none
    | some rest3 =>
      let rest4 := rest3.dropWhile Char.isWhitespace
      let withOf := match rest4.dropPrefix? "of".data with
        | some r5 =>
          ((r5.dropWhile Char.isWhitespace).dropPrefix? "experience".data).isSome
        | none => false
      if withOf || (rest4.dropPrefix? "experience".data).isSome then
        some (digitsToNat ds)
      else none

/-- Leftmost search for pattern 1. -/
def searchYears : List Char → Option Nat
  | [] => none
  | c :: cs =>
    match matchYearsAt (c :: cs) with
    | some n => some n
    | none => searchYears cs

/-- Match pattern `(since|established|founded)\s*(\d{4})` at the head of the
(lowercased) character list, returning the captured four-digit year. -/
def matchSinceAt (cs : List Char) : Option Nat :=
  let afterKw :=
    match cs.dropPrefix? "since".data with
    | some r => some r
    | none =>
      match cs.dropPrefix? "established".data with
      | some r => some r
      | none => cs.dropPrefix? "founded".data
  match afterKw with
  | none => none
  | some r =>
    match r.dropWhile Char.isWhitespace with
    | a :: b :: c :: d :: _ =>
      if a.isDigit && b.isDigit && c.isDigit && d.isDigit then
        some (digitsToNat [a, b, c, d])
      else none
    | _ => none

/-- Leftmost search for pattern 2. -/
def searchSince : List Char → Option Nat
  | [] => none
  | c :: cs =>
    match matchSinceAt (c :: cs) with
    | some n => some n
    | none => searchSince cs

/-- Embedding of `LawyerWebsiteScraper._extract_years_experience`: the
document is abstracted to its page text.  The source hard-codes
`current_year = 2024`. -/
def extract_years_experience (pageText : String) : Option Nat :=
  let cs := (strToLower pageText).data
  match searchYears cs with
  | some n => some n
  | none =>
    match searchSince cs with
    | some year =>
      if 1950 ≤ year && year ≤ 2024 then some (2024 - year) else none
    | none => none

/-! ### Specializations extractor (`_extract_specializations`) -/

/-- The fixed keyword vocabulary of `_extract_specializations`. -/
def specKeywords : List String :=
  ["medical negligence", "medical malpractice", "clinical negligence",
   "surgical error", "misdiagnosis", "birth injury", "medication error",
   "hospital negligence", "anesthesia error", "emergency room error",
   "nursing home abuse", "dental negligence", "obstetric negligence"]

/-- Does a keyword occur in some practice-area section's text or in the whole
page text (both lowercased by the source before the substring test)? -/
def keywordHit (practiceSections : List String) (pageText : String)
    (k : String) : Bool :=
  practiceSections.any (fun s => strContains (strToLower s) k) ||
    strContains (strToLower pageText) k

/-- Embedding of `LawyerWebsiteScraper._extract_specializations`: the
document is abstracted to the texts of its practice-area sections plus the
whole page text.  The source collects `keyword.title()` for every vocabulary
hit into a set and returns `sorted(list(...))`. -/
def extract_specializations (practiceSections : List String)
    (pageText : String) : List String :=
  List.insertionSort (· ≤ ·)
    (pySet ((specKeywords.filter (keywordHit practiceSections pageText)).map pyTitle))

/-! ### Data model

`Lawyer` is the Business Record: a Python dict with optional keys, modelled
as a structure of `Option` fields (absent key = `none`).  The Lean field
`avail_24_7` stands for the Python key `"24_7_available"`. -/

/-- Team member as assembled by `_extract_team_members`. -/
structure TeamMember where
  full_name : String
  role : Option String := none
  bio : Option String := none
  photo_url : Option String := none

/-- Case study as assembled by `_extract_case_studies`. -/
structure CaseStudy where
  title : String
  summary : String
  year : Option Nat := none

/-- Testimonial as assembled by `_extract_testimonials`. -/
structure Testimonial where
  text : String
  client_name : Option String := none
  rating : Option Nat := none

/-- The Business Record (one lawyer dict). -/
structure Lawyer where
  firm_name : Option String := none
  city : Option String := none
  state : Option String := none
  state_code : Option String := none
  website : Option String := none
  email : Option String := none
  description : Option String := none
  short_description : Option String := none
  specializations : Option (List String) := none
  team_members : Option (List TeamMember) := none
  years_experience : Option Nat := none
  founded_year : Option Nat := none
  awards : Option (List String) := none
  accreditations : Option (List String) := none
  case_studies : Option (List CaseStudy) := none
  meta_title : Option String := none
  meta_description : Option String := none
  google_rating : Option ℚ := none
  success_rate : Option Nat := none
  total_cases_handled : Option Nat := none
  average_response_time : Option String := none
  no_win_no_fee : Option Bool := none
  free_consultation : Option Bool := none
  home_visits : Option Bool := none
  telehealth : Option Bool := none
  avail_24_7 : Option Bool := none
  home_visits_available : Option Bool := none
  telehealth_available : Option Bool := none

/-- Abstraction of one fetched-and-parsed website for the extractors: the
texts the modelled extractors consult, plus the outputs of the remaining
extractors (whose DOM-walking heuristics are outside the claims and are
treated as attributes of the parsed document). -/
structure PageDoc where
  pageText : String := ""
  practiceSections : List String := []
  descriptionText : String := ""
  shortDescriptionText : String := ""
  teamMembers : List TeamMember := []
  awards : List String := []
  accreditations : List String := []
  caseStudies : List CaseStudy := []
  testimonials : List Testimonial := []
  contactEmail : Option String := none
  metaTitle : String := ""
  metaDescription : String := ""

/-- The Extraction Result: the dict returned by `scrape_website`.  On the
failure path the Python dict simply lacks the payload keys; since the merge
reads payload fields only under `scraped_successfully`, absent keys are
modelled by the neutral defaults below. -/
structure WebsiteData where
  website : String := ""
  scraped_successfully : Bool := false
  error : Option String := none
  description : String := ""
  short_description : String := ""
  specializations : List String := []
  team_members : List TeamMember := []
  years_experience : Option Nat := none
  awards : List String := []
  accreditations : List String := []
  case_studies : List CaseStudy := []
  testimonials : List Testimonial := []
  features : Features := ⟨false, false, false, false, false⟩
  contact_email : Option String := none
  meta_title : String := ""
  meta_description : String := ""

/-! ### Extraction orchestrator (`scrape_website`) -/

/-- Embedding of `LawyerWebsiteScraper.scrape_website`.  The network fetch
and HTML parse are external collaborators, abstracted as an
`Except String PageDoc` argument: `.error e` is the `requests.RequestException`
path (timeout, non-success status via `raise_for_status`, network error)
whose message the source stores under `data['error']`. -/
def scrape_website (url : String) (fetched : Except String PageDoc) :
    WebsiteData :=
  match fetched with
  | .error e => { website := url, scraped_successfully := false, error := some e }
  | .ok doc =>
    { website := url
      scraped_successfully := true
      error := none
      description := doc.descriptionText
      short_description := doc.shortDescriptionText
      specializations := extract_specializations doc.practiceSections doc.pageText
      team_members := doc.teamMembers
      years_experience := extract_years_experience doc.pageText
      awards := doc.awards
      accreditations := doc.accreditations
      case_studies := doc.caseStudies
      testimonials := doc.testimonials
      features := extract_features doc.pageText
      contact_email := doc.contactEmail
      meta_title := doc.metaTitle
      meta_description := doc.metaDescription }

/-! ### Merge engine (`enrich_lawyers_with_website_data`, merge step)

The source mutates the lawyer dict field by field inside
`if website_data.get('scraped_successfully')`.  Each key is written at most
once and every condition reads only pre-merge values (the specializations
union reads `lawyer.get('specializations', [])` and the email guard reads
`lawyer.get('email')`, both untouched by the earlier writes), so the
sequential loop is embedded as one parallel record update. -/

/-- Merge one Extraction Result into a Business Record. -/
def mergeWebsiteData (l : Lawyer) (wd : WebsiteData) : Lawyer :=
  if wd.scraped_successfully then
    { l with
      description :=
        if wd.description != "" && wd.description.length > 200 then
          some wd.description
        else l.description
      short_description :=
        if wd.short_description != "" then some wd.short_description
        else l.short_description
      specializations :=
        if !wd.specializations.isEmpty then
          some (pySet (l.specializations.getD [] ++ wd.specializations))
        else l.specializations
      team_members :=
        if !wd.team_members.isEmpty then some wd.team_members
        else l.team_members
      years_experience :=
        if truthyON wd.years_experience then wd.years_experience
        else l.years_experience
      awards := if !wd.awards.isEmpty then some wd.awards else l.awards
      accreditations :=
        if !wd.accreditations.isEmpty then some wd.accreditations
        else l.accreditations
      case_studies :=
        if !wd.case_studies.isEmpty then some wd.case_studies
        else l.case_studies
      meta_title :=
        if wd.meta_title != "" then some wd.meta_title else l.meta_title
      meta_description :=
        if wd.meta_description != "" then some wd.meta_description
        else l.meta_description
      no_win_no_fee :=
        if wd.features.no_win_no_fee then some true else l.no_win_no_fee
      free_consultation :=
        if wd.features.free_consultation then some true else l.free_consultation
      home_visits :=
        if wd.features.home_visits then some true else l.home_visits
      telehealth :=
        if wd.features.telehealth then some true else l.telehealth
      avail_24_7 :=
        if wd.features.avail_24_7 then some true else l.avail_24_7
      email :=
        if truthyOS wd.contact_email && !truthyOS l.email then wd.contact_email
        else l.email }
  else l

/-- Embedding of the batch loop of `enrich_lawyers_with_website_data`.  The
scraper session is abstracted as a `fetch` oracle from URL to fetch outcome;
records without a truthy website are appended unchanged. -/
def enrich_lawyers_with_website_data (fetch : String → Except String PageDoc) :
    List Lawyer → List Lawyer
  | [] => []
  | l :: rest =>
    (match l.website with
     | none => l
     | some w =>
       if w == "" then l else mergeWebsiteData l (scrape_website w (fetch w))) ::
      enrich_lawyers_with_website_data fetch rest

/-! ### Description synthesizer (`description_generator.py`) -/

/-- Short-description helper: `firm = lawyer_data.get('firm_name', 'This law firm')`. -/
def sdFirm (l : Lawyer) : String := l.firm_name.getD "This law firm"

/-- Short-description helper: primary specialization,
`specs[0] if specs else 'medical negligence'`. -/
def sdSpec (l : Lawyer) : String :=
  match l.specializations.getD [] with
  | [] => "medical negligence"
  | s :: _ => s

/-- Short-description helper: the key-feature tag list. -/
def sdFeatures (l : Lawyer) : List String :=
  (if truthyOB l.no_win_no_fee then ["no win no fee"] else []) ++
    (if truthyOB l.free_consultation then ["free consultation"] else [])

/-- Short-description helper: the `parts` list built by
`generate_short_description` (years clause, lowercased primary
specialization, location clause, title-cased feature tags joined with
`" | "`). -/
def sdParts (l : Lawyer) : List String :=
  (match l.years_experience with
   | some y => if y != 0 then [toString y ++ "+ years experience"] else []
   | none => []) ++
  [strToLower (sdSpec l)] ++
  (let city := l.city.getD ""
   let location := if city != "" then city else l.state_code.getD ""
   if location != "" then ["in " ++ location] else []) ++
  (let features := sdFeatures l
   if !features.isEmpty then [pyTitle (String.intercalate " | " features)]
   else [])

/-- Short-description helper: the primary composition
`f"{firm} - {', '.join(parts)}."`. -/
def sdPrimary (l : Lawyer) : String :=
  sdFirm l ++ " - " ++ String.intercalate ", " (sdParts l) ++ "."

/-- Short-description helper: the over-length replacement
`f"{firm} - {spec.title()} lawyers in {city}. {features[0].title() if features else 'Expert representation'}."`. -/
def sdFallback (l : Lawyer) : String :=
  sdFirm l ++ " - " ++ pyTitle (sdSpec l) ++ " lawyers in " ++ l.city.getD "" ++
    ". " ++
    (match sdFeatures l with
     | f :: _ => pyTitle f
     | [] => "Expert representation") ++ "."

/-- Embedding of `LawyerDescriptionGenerator.generate_short_description`. -/
def generate_short_description (l : Lawyer) : String :=
  let short_desc := sdPrimary l
  if short_desc.length > 200 then sdFallback l else short_desc

/-- Embedding of `LawyerDescriptionGenerator._generate_intro`. -/
def generate_intro (l : Lawyer) : String :=
  let firm_name := l.firm_name.getD "This law firm"
  let city := l.city.getD ""
  let state := l.state.getD ""
  let adjectives : List String :=
    (match l.years_experience with
     | some y => if y > 20 then ["highly experienced"]
                 else if y > 10 then ["experienced"] else []
     | none => []) ++
    (match l.google_rating with
     | some r => if (4.5 : ℚ) ≤ r then ["top-rated"]
                 else if (4 : ℚ) ≤ r then ["well-regarded"] else []
     | none => []) ++
    (if truthyOL l.awards then ["award-winning"] else [])
  let adjective :=
    if !adjectives.isEmpty then String.intercalate ", " (adjectives.take 2)
    else "dedicated"
  let intro := firm_name ++ " is a " ++ adjective ++ " medical negligence law firm"
  let intro := intro ++
    (if city != "" && state != "" then " serving " ++ city ++ ", " ++ state
     else if city != "" then " based in " ++ city
     else if state != "" then " serving " ++ state
     else "")
  let intro := intro ++ "."
  let intro := intro ++
    (if truthyON l.years_experience then
       (if truthyON l.founded_year then
          " Since " ++ toString (l.founded_year.getD 0) ++
            ", we have been dedicated to representing victims of medical malpractice."
        else
          " With over " ++ toString (l.years_experience.getD 0) ++
            " years of experience, we have successfully represented numerous medical negligence victims.")
     else "")
  intro ++
    (if truthyON l.success_rate then
       " Our team maintains an impressive " ++ toString (l.success_rate.getD 0) ++
         "% success rate."
     else "")

/-- Embedding of `LawyerDescriptionGenerator._generate_specializations_paragraph`. -/
def generate_specializations_paragraph (l : Lawyer) : String :=
  match l.specializations.getD [] with
  | [] =>
    "We handle all types of medical negligence and malpractice cases, providing expert legal representation for victims of medical errors."
  | specs =>
    let spec_text :=
      match specs with
      | [s] => strToLower s
      | [a, b] => strToLower a ++ " and " ++ strToLower b
      | _ =>
        String.intercalate ", " (specs.dropLast.map strToLower) ++
          ", and " ++ strToLower specs.getLast!
    "Our practice areas include " ++ spec_text ++ ". " ++
      "We understand the complex medical and legal issues involved in these cases " ++
      "and work diligently to secure the compensation our clients deserve for their injuries and suffering."

/-- Embedding of `LawyerDescriptionGenerator._generate_experience_paragraph`. -/
def generate_experience_paragraph (l : Lawyer) : String :=
  let parts : List String :=
    (if truthyON l.total_cases_handled then
       ["Our experienced team has successfully handled over " ++
          toString (l.total_cases_handled.getD 0) ++ " medical negligence cases"]
     else []) ++
    (let awards := l.awards.getD []
     if !awards.isEmpty then
       ["We have received " ++
          (if awards.length == 1 then awards.headD ""
           else toString awards.length ++ " professional awards and recognitions")]
     else []) ++
    (if truthyOL l.accreditations then
       ["Our lawyers hold specialist accreditations in personal injury and medical negligence law"]
     else []) ++
    (let team := l.team_members.getD []
     if !team.isEmpty && team.length > 1 then
       ["Our team of " ++ toString team.length ++
          " dedicated legal professionals brings diverse expertise to every case"]
     else [])
  if parts.isEmpty then
    "Our experienced legal team is dedicated to providing exceptional representation for medical negligence victims. We stay current with the latest developments in medical malpractice law to best serve our clients."
  else
    String.intercalate ". " parts ++ "."

/-- The `features` phrase list built by `_generate_features_paragraph`:
note it reads the record keys `home_visits_available` and
`telehealth_available`, not the keys the merge writes. -/
def featuresPhrases (l : Lawyer) : List String :=
  (if truthyOB l.no_win_no_fee then ["no win, no fee arrangements"] else []) ++
    (if truthyOB l.free_consultation then ["free initial consultations"] else []) ++
    (if truthyOB l.home_visits_available then ["home and hospital visits"] else []) ++
    (if truthyOB l.telehealth_available then ["virtual consultations"] else [])

/-- Embedding of `LawyerDescriptionGenerator._generate_features_paragraph`. -/
def generate_features_paragraph (l : Lawyer) : String :=
  let features := featuresPhrases l
  if features.isEmpty then
    "We are committed to providing accessible, compassionate legal services to medical negligence victims. Our client-focused approach ensures you receive the personal attention and expert representation your case deserves."
  else
    let feature_text :=
      if features.length > 1 then
        String.intercalate ", " features.dropLast ++ " and " ++ features.getLast!
      else features.headD ""
    "We understand that pursuing a medical negligence claim can be daunting, which is why we offer " ++
      feature_text ++ ". " ++
      "Our compassionate approach means we take the time to understand your situation and guide you through every step of the legal process." ++
      (match l.average_response_time with
       | some t =>
         if t != "" then
           " We pride ourselves on our responsiveness, typically responding to inquiries " ++
             strToLower t ++ "."
         else ""
       | none => "")

/-- Embedding of `LawyerDescriptionGenerator._generate_call_to_action`. -/
def generate_call_to_action (l : Lawyer) : String :=
  let firm := l.firm_name.getD "our firm"
  let city := l.city.getD ""
  "If you or a loved one has been a victim of medical negligence, don\x27t wait to seek legal advice. " ++
    (if truthyOB l.free_consultation then
       "Contact " ++ firm ++ " today for a free, confidential consultation. "
     else
       "Contact " ++ firm ++ " today to discuss your case. ") ++
    "We\x27ll review your situation, explain your legal options, and help you understand your rights. " ++
    (if city != "" then
       "Let our experienced " ++ city ++
         " medical negligence lawyers fight for the justice and compensation you deserve."
     else
       "Let our experienced medical negligence lawyers fight for the justice and compensation you deserve.")

/-- Embedding of `LawyerDescriptionGenerator.generate_description`: the five
optional paragraphs appended when truthy (non-empty), joined by blank lines. -/
def generate_description (l : Lawyer) : String :=
  let paragraphs :=
    (let p := generate_intro l; if p != "" then [p] else []) ++
    (let p := generate_specializations_paragraph l; if p != "" then [p] else []) ++
    (let p := generate_experience_paragraph l; if p != "" then [p] else []) ++
    (let p := generate_features_paragraph l; if p != "" then [p] else []) ++
    (let p := generate_call_to_action l; if p != "" then [p] else [])
  String.intercalate "\n\n" paragraphs

/-! ### Supporting lemmas -/

/-- The deduplication model keeps a subsequence of its input. -/
theorem pySet_sublist : ∀ xs : List String, (pySet xs).Sublist xs
  | [] => List.Sublist.refl _
  | x :: xs =>
    (((pySet xs).filter_sublist).trans (pySet_sublist xs)).cons₂ x

/-- The deduplication model produces exact-duplicate-free lists. -/
theorem pySet_nodup : ∀ xs : List String, (pySet xs).Nodup
  | [] => List.nodup_nil
  | x :: xs => by
    refine List.Nodup.cons ?_ ((pySet_nodup xs).filter _)
    intro hx
    simp [List.mem_filter] at hx

/-- The deduplication model preserves membership. -/
theorem mem_pySet (s : String) : ∀ xs : List String, s ∈ pySet xs ↔ s ∈ xs
  | [] => Iff.rfl
  | x :: xs => by
    by_cases h : s = x <;>
      simp [pySet, List.mem_filter, h, mem_pySet s xs]

/-- A true optional flag stays true under the merge's conditional write. -/
theorem truthy_le_ite (a : Option Bool) (c : Bool) :
    truthyOB a ≤ truthyOB (if c then some true else a) := by
  cases c
  · simp
  · exact Bool.le_true _

/-! ### Claim C1 -/

/-- Record holding a 300-character description, for the C1 counterexample. -/
def longDescRecord : Lawyer :=
  { description := some (String.mk (List.replicate 300 'a')) }

/-- Successful extraction carrying a 201-character description, for the C1
counterexample. -/
def shorterDescResult : WebsiteData :=
  { scraped_successfully := true
    description := String.mk (List.replicate 201 'b') }

set_option maxRecDepth 40000 in
/-- Claim C1 counterexample: merging a successfully-scraped description of
201 characters into a record whose description has 300 characters replaces
it, so the merge does replace a description by a strictly shorter text —
the claim as stated is false. -/
theorem merge_shortens_description :
    (mergeWebsiteData longDescRecord shorterDescResult).description =
      some (String.mk (List.replicate 201 'b')) ∧
    (String.mk (List.replicate 201 'b')).length <
      (String.mk (List.replicate 300 'a')).length := by
  decide

/-- Claim C1 (amended): merging never turns a feature flag that is truthy in
the record into false/unknown, and the record's description is either left
unchanged or replaced by a text of more than 200 characters (which may be
shorter than the existing text, but is never cleared). -/
theorem merge_monotonicity_amended (l : Lawyer) (wd : WebsiteData) :
    truthyOB l.no_win_no_fee ≤ truthyOB (mergeWebsiteData l wd).no_win_no_fee ∧
    truthyOB l.free_consultation ≤
      truthyOB (mergeWebsiteData l wd).free_consultation ∧
    truthyOB l.home_visits ≤ truthyOB (mergeWebsiteData l wd).home_visits ∧
    truthyOB l.telehealth ≤ truthyOB (mergeWebsiteData l wd).telehealth ∧
    truthyOB l.avail_24_7 ≤ truthyOB (mergeWebsiteData l wd).avail_24_7 ∧
    ((mergeWebsiteData l wd).description = l.description ∨
      ∃ d, (mergeWebsiteData l wd).description = some d ∧ 200 < d.length) := by
  cases h : wd.scraped_successfully
  · simp [mergeWebsiteData, h]
  · refine ⟨?_, ?_, ?_, ?_, ?_, ?_⟩ <;>
      simp only [mergeWebsiteData, h, eq_self_iff_true, if_true]
    · exact truthy_le_ite _ _
    · exact truthy_le_ite _ _
    · exact truthy_le_ite _ _
    · exact truthy_le_ite _ _
    · exact truthy_le_ite _ _
    · by_cases hc :
        (wd.description != "" && decide (wd.description.length > 200)) = true
      · exact Or.inr ⟨wd.description, by rw [if_pos hc],
          of_decide_eq_true ((Bool.and_eq_true _ _).mp hc).2⟩
      · exact Or.inl (by rw [if_neg hc])

/-! ### Claim C2 -/

/-- Record already holding a meta title, for the C2 counterexample. -/
def titledRecord : Lawyer := { meta_title := some "Old Title" }

/-- Successful extraction carrying a different meta title, for the C2
counterexample. -/
def newTitleResult : WebsiteData :=
  { scraped_successfully := true, meta_title := "New Title" }

/-- Claim C2 counterexample: the record already has a meta title, yet merging
a successful extraction with a non-empty meta title overwrites it, so the
fields are not set only when the target is absent/empty. -/
theorem merge_overwrites_meta_title :
    titledRecord.meta_title = some "Old Title" ∧
    (mergeWebsiteData titledRecord newTitleResult).meta_title =
      some "New Title" ∧
    (mergeWebsiteData titledRecord newTitleResult).meta_title ≠
      titledRecord.meta_title := by
  decide

/-- Claim C2 (amended): on a successful scrape the merge overwrites
years_experience, awards, accreditations, case_studies, meta_title and
meta_description whenever the newly extracted value is truthy, regardless of
the record's current value, and keeps the record's value otherwise;
founded_year is never written by the merge (the extraction result carries no
founded_year at all). -/
theorem merge_scalar_fields_overwrite (l : Lawyer) (wd : WebsiteData) :
    (mergeWebsiteData l wd).years_experience =
      (if wd.scraped_successfully then
        (if truthyON wd.years_experience then wd.years_experience
         else l.years_experience)
       else l.years_experience) ∧
    (mergeWebsiteData l wd).awards =
      (if wd.scraped_successfully then
        (if !wd.awards.isEmpty then some wd.awards else l.awards)
       else l.awards) ∧
    (mergeWebsiteData l wd).accreditations =
      (if wd.scraped_successfully then
        (if !wd.accreditations.isEmpty then some wd.accreditations
         else l.accreditations)
       else l.accreditations) ∧
    (mergeWebsiteData l wd).case_studies =
      (if wd.scraped_successfully then
        (if !wd.case_studies.isEmpty then some wd.case_studies
         else l.case_studies)
       else l.case_studies) ∧
    (mergeWebsiteData l wd).meta_title =
      (if wd.scraped_successfully then
        (if wd.meta_title != "" then some wd.meta_title else l.meta_title)
       else l.meta_title) ∧
    (mergeWebsiteData l wd).meta_description =
      (if wd.scraped_successfully then
        (if wd.meta_description != "" then some wd.meta_description
         else l.meta_description)
       else l.meta_description) ∧
    (mergeWebsiteData l wd).founded_year = l.founded_year := by
  cases h : wd.scraped_successfully <;> simp [mergeWebsiteData, h]

/-! ### Claim C3 -/

/-- Claim C3 counterexample: on a page with none of the feature phrases, the
extractor's dict explicitly maps `no_win_no_fee` to `False` — extraction does
assert an explicit false, so the claim as stated is false. -/
theorem extract_features_explicit_false :
    ("no_win_no_fee", false) ∈
      featuresItems (extract_features "Welcome to our law firm") := by
  decide

/-- Claim C3 (amended): the feature extractor emits an explicit boolean for
every flag — false included — for each of the five keys; the tri-state
(unknown / true) discipline holds one level up, at the merge: each record
feature flag is either left unchanged or set to true, never set to an
explicit false. -/
theorem features_tristate_at_record_level (t : String) (l : Lawyer)
    (wd : WebsiteData) :
    (("no_win_no_fee", false) ∈ featuresItems (extract_features t) ∨
      ("no_win_no_fee", true) ∈ featuresItems (extract_features t)) ∧
    ((mergeWebsiteData l wd).no_win_no_fee = l.no_win_no_fee ∨
      (mergeWebsiteData l wd).no_win_no_fee = some true) ∧
    ((mergeWebsiteData l wd).free_consultation = l.free_consultation ∨
      (mergeWebsiteData l wd).free_consultation = some true) ∧
    ((mergeWebsiteData l wd).home_visits = l.home_visits ∨
      (mergeWebsiteData l wd).home_visits = some true) ∧
    ((mergeWebsiteData l wd).telehealth = l.telehealth ∨
      (mergeWebsiteData l wd).telehealth = some true) ∧
    ((mergeWebsiteData l wd).avail_24_7 = l.avail_24_7 ∨
      (mergeWebsiteData l wd).avail_24_7 = some true) := by
  constructor
  · cases h : (extract_features t).no_win_no_fee
    · exact Or.inl (by simp [featuresItems, h])
    · exact Or.inr (by simp [featuresItems, h])
  · cases h : wd.scraped_successfully
    · simp [mergeWebsiteData, h]
    · refine ⟨?_, ?_, ?_, ?_, ?_⟩ <;>
        simp only [mergeWebsiteData, h, if_true] <;> split <;> simp

/-! ### Claim C4 -/

/-- Record with a lowercase specialization, for the C4 counterexample. -/
def lowercaseSpecRecord : Lawyer := { specializations := some ["birth injury"] }

/-- Successful extraction with the title-cased variant of the same
specialization, for the C4 counterexample. -/
def titleCaseSpecResult : WebsiteData :=
  { scraped_successfully := true, specializations := ["Birth Injury"] }

/-- Claim C4 counterexample: after merging, the record holds two distinct
entries that are equal up to case (and the list is not even sorted), so the
merged record's specializations are neither case-insensitively deduplicated
nor sorted — the claim as stated is false. -/
theorem merged_specializations_case_duplicates :
    (mergeWebsiteData lowercaseSpecRecord titleCaseSpecResult).specializations =
      some ["birth injury", "Birth Injury"] ∧
    "birth injury" ≠ "Birth Injury" ∧
    strToLower "birth injury" = strToLower "Birth Injury" := by
  decide

/-- Claim C4 (amended): the extractor's output list is always sorted and
case-insensitively deduplicated; the merge, however, only performs
exact-match deduplication of the union — when it writes the field, the
result is a duplicate-free list containing exactly the union of the old and
new entries, in no particular order and with case-variant entries kept. -/
theorem specializations_sorted_dedup_amended :
    (∀ (sections : List String) (page : String),
      List.Sorted (· ≤ ·) (extract_specializations sections page) ∧
      List.Pairwise (fun a b => strToLower a ≠ strToLower b)
        (extract_specializations sections page)) ∧
    (∀ (l : Lawyer) (wd : WebsiteData),
      (mergeWebsiteData l wd).specializations = l.specializations ∨
      ∃ xs, (mergeWebsiteData l wd).specializations = some xs ∧ xs.Nodup ∧
        ∀ s, (s ∈ xs ↔ s ∈ l.specializations.getD [] ++ wd.specializations)) := by
  constructor
  · intro sections page
    constructor
    · exact List.sorted_insertionSort (· ≤ ·) _
    · have hbase : List.Pairwise (fun a b : String => strToLower a ≠ strToLower b)
          (specKeywords.map pyTitle) := by decide
      have hsub :
          (pySet ((specKeywords.filter
              (keywordHit sections page)).map pyTitle)).Sublist
            (specKeywords.map pyTitle) :=
        (pySet_sublist _).trans ((List.filter_sublist _).map pyTitle)
      exact (List.Perm.pairwise_iff (fun hab hba => hab hba.symm)
        (List.perm_insertionSort _ _)).mpr (hbase.sublist hsub)
  · intro l wd
    cases h : wd.scraped_successfully
    · exact Or.inl (by simp [mergeWebsiteData, h])
    · by_cases hne : wd.specializations.isEmpty
      · exact Or.inl (by simp [mergeWebsiteData, h, hne])
      · refine Or.inr ⟨pySet (l.specializations.getD [] ++ wd.specializations),
          ?_, pySet_nodup _, fun s => mem_pySet s _⟩
        simp [mergeWebsiteData, h, hne]

/-! ### Claim C5 -/

/-- Claim C5 counterexample: the first pattern of the years extractor returns
the parsed number unclamped, so a page claiming 500 years of experience
yields 500, outside [0, 150] — the claim as stated is false. -/
theorem years_experience_unbounded :
    extract_years_experience "500 years experience" = some 500 ∧
    ¬(500 ≤ 150) := by
  decide

/-- Claim C5 (amended): only values derived through the
since/established/founded pattern are bounded — they lie in [0, 74]
(current year 2024 minus a year at least 1950) and hence in [0, 150]; a
value derived through the first pattern is the raw parsed number and is
unbounded. -/
theorem years_since_pattern_bounded (t : String) (n : Nat)
    (h1 : searchYears (strToLower t).data = none)
    (h2 : extract_years_experience t = some n) : n ≤ 74 := by
  cases hs : searchSince (strToLower t).data with
  | none => simp [extract_years_experience, h1, hs] at h2
  | some y =>
    simp only [extract_years_experience, h1, hs] at h2
    by_cases hy : (decide (1950 ≤ y) && decide (y ≤ 2024)) = true
    · rw [if_pos hy] at h2
      have hy' : 1950 ≤ y := of_decide_eq_true ((Bool.and_eq_true _ _).mp hy).1
      have hn : 2024 - y = n := by simpa using h2
      omega
    · rw [if_neg hy] at h2
      exact absurd h2 (by simp)

/-- Witness for the amended C5 theorem at the concrete page text
"Established 1999". -/
theorem years_since_pattern_bounded_witness :
    searchYears (strToLower "Established 1999").data = none ∧
    extract_years_experience "Established 1999" = some 25 ∧ 25 ≤ 74 :=
  ⟨by decide, by decide,
    years_since_pattern_bounded "Established 1999" 25 (by decide) (by decide)⟩

/-! ### Claim C6 -/

/-- Claim C6: the years extractor tries two mutually exclusive patterns with
the first match winning — "with over 22+ years experience" yields 22 (the
number returned directly), "Established 1999" with the hard-coded current
year 2024 yields 25, a first-pattern match is returned directly, and a page
matching neither pattern yields unknown. -/
theorem years_extractor_first_match_wins :
    extract_years_experience "with over 22+ years experience" = some 22 ∧
    extract_years_experience "Established 1999" = some 25 ∧
    (∀ (t : String) (n : Nat), searchYears (strToLower t).data = some n →
      extract_years_experience t = some n) ∧
    (∀ t : String, searchYears (strToLower t).data = none →
      searchSince (strToLower t).data = none →
      extract_years_experience t = none) := by
  refine ⟨by decide, by decide, ?_, ?_⟩
  · intro t n h
    simp [extract_years_experience, h]
  · intro t h1 h2
    simp [extract_years_experience, h1, h2]

/-- Witness for the C6 theorem's quantified conjuncts, at the concrete pages
"10 years experience" and "no signals here". -/
theorem years_extractor_first_match_wins_witness :
    searchYears (strToLower "10 years experience").data = some 10 ∧
    extract_years_experience "10 years experience" = some 10 ∧
    searchYears (strToLower "no signals here").data = none ∧
    searchSince (strToLower "no signals here").data = none ∧
    extract_years_experience "no signals here" = none :=
  ⟨by decide,
   years_extractor_first_match_wins.2.2.1 "10 years experience" 10 (by decide),
   by decide, by decide,
   years_extractor_first_match_wins.2.2.2 "no signals here" (by decide)
     (by decide)⟩

/-! ### Claim C7 -/

/-- Modelled from claim C7's wording: the parts list it describes — the
years clause, the lowercased primary specialization, "in <city or state>",
and the feature tags. -/
def claimParts_C7 (l : Lawyer) : List String :=
  (match l.years_experience with
   | some y => if y != 0 then [toString y ++ "+ years experience"] else []
   | none => []) ++
  [strToLower (sdSpec l)] ++
  (let city := l.city.getD ""
   let location := if city != "" then city else l.state.getD ""
   if location != "" then ["in " ++ location] else []) ++
  (let features := sdFeatures l
   if !features.isEmpty then [pyTitle (String.intercalate " | " features)]
   else [])

/-- Modelled from claim C7's wording: the parts joined with " | " and
prefixed with the firm name (completed with the code's " - " separator and
terminating period, which the claim leaves implicit). -/
def claimShortDescription_C7 (l : Lawyer) : String :=
  sdFirm l ++ " - " ++ String.intercalate " | " (claimParts_C7 l) ++ "."

/-- Record for the C7 counterexample, with the city present so that the only
difference between claim and code is the joining separator. -/
def pipeJoinRecord : Lawyer :=
  { firm_name := some "Smith & Co"
    city := some "Sydney"
    state := some "NSW"
    state_code := some "NSW"
    years_experience := some 15
    specializations := some ["Birth Injury"] }

/-- Claim C7 counterexample: the code joins the parts with ", ", not with
" | " as the claim states, so the generated short description differs from
the claim's described composition. -/
theorem short_description_join_counterexample :
    generate_short_description pipeJoinRecord =
      "Smith & Co - 15+ years experience, birth injury, in Sydney." ∧
    claimShortDescription_C7 pipeJoinRecord =
      "Smith & Co - 15+ years experience | birth injury | in Sydney." ∧
    generate_short_description pipeJoinRecord ≠
      claimShortDescription_C7 pipeJoinRecord := by
  decide

/-- Claim C7 (amended): the short description is the parts (years clause,
lowercased primary specialization, "in <city or state code>", title-cased
feature tags internally joined with " | ") joined with ", ", prefixed with
the firm name and " - " and ended with a period; the final output is either
at most 200 characters or exactly the fallback template that replaces a
primary composition exceeding 200 characters. -/
theorem short_description_amended (l : Lawyer) :
    (generate_short_description l =
        sdFirm l ++ " - " ++ String.intercalate ", " (sdParts l) ++ "." ∨
      generate_short_description l = sdFallback l) ∧
    ((generate_short_description l).length ≤ 200 ∨
      generate_short_description l = sdFallback l) := by
  by_cases h : (sdPrimary l).length > 200
  · exact ⟨Or.inr (by simp only [generate_short_description]; rw [if_pos h]),
      Or.inr (by simp only [generate_short_description]; rw [if_pos h])⟩
  · constructor
    · exact Or.inl (by
        simp only [generate_short_description]
        rw [if_neg h]
        rfl)
    · refine Or.inl ?_
      simp only [generate_short_description]
      rw [if_neg h]
      omega

/-! ### Claim C8 -/

/-- Helper splitting a character list at each blank-line separator. -/
def splitParasAux (acc : List Char) : List Char → List (List Char)
  | '\n' :: '\n' :: rest => acc.reverse :: splitParasAux [] rest
  | c :: rest => splitParasAux (c :: acc) rest
  | [] => [acc.reverse]

/-- Model of Python `s.split("\n\n")`, used to count the synthesized
paragraphs. -/
def splitParagraphs (s : String) : List String :=
  (splitParasAux [] s.data).map fun cs => ⟨cs⟩

/-- The concrete record of the end-to-end example in claim C8. -/
def smithCoRecord : Lawyer :=
  { firm_name := some "Smith & Co"
    city := some "Sydney"
    state := some "NSW"
    years_experience := some 15
    founded_year := some 2009
    specializations := some ["Birth Injury", "Surgical Error"]
    free_consultation := some true }

set_option maxRecDepth 200000 in
/-- Claim C8: for the Smith & Co record the generator produces exactly 5
paragraphs joined by blank lines; the first paragraph starts with the
claimed first sentence and the specializations paragraph starts with the
claimed practice-areas sentence. -/
theorem end_to_end_description_example :
    (splitParagraphs (generate_description smithCoRecord)).length = 5 ∧
    ("Smith & Co is a experienced medical negligence law firm serving Sydney, NSW.".data.isPrefixOf
      ((splitParagraphs (generate_description smithCoRecord)).headD "").data) = true ∧
    ("Our practice areas include birth injury and surgical error.".data.isPrefixOf
      (((splitParagraphs (generate_description smithCoRecord)).getD 1 "").data)) = true := by
  decide

/-! ### Claim C9 -/

/-- Claim C9: a failed fetch produces an extraction result marked
unsuccessful that carries the error cause as a string; merging it leaves the
business record completely unchanged, and the batch loop still produces one
output record per input record. -/
theorem fetch_failure_passthrough (url e : String) (l : Lawyer) :
    (scrape_website url (Except.error e)).scraped_successfully = false ∧
    (scrape_website url (Except.error e)).error = some e ∧
    mergeWebsiteData l (scrape_website url (Except.error e)) = l ∧
    ∀ (fetch : String → Except String PageDoc) (ls : List Lawyer),
      (enrich_lawyers_with_website_data fetch ls).length = ls.length := by
  refine ⟨rfl, rfl, ?_, ?_⟩
  · simp [mergeWebsiteData, scrape_website]
  · intro fetch ls
    induction ls with
    | nil => rfl
    | cons x xs ih => simp [enrich_lawyers_with_website_data, ih]

/-! ### Claim C10 -/

/-- Claim C10: for a record lacking the keys `home_visits_available` and
`telehealth_available`, merging any extraction result never creates them —
the merge writes the scraped feature signals to the keys `home_visits`,
`telehealth` and `24_7_available` instead — so the home-visits and
virtual-consultation phrases of the synthesized features paragraph can never
reflect scraped signals. -/
theorem merge_never_creates_available_keys (l : Lawyer) (wd : WebsiteData)
    (h1 : l.home_visits_available = none) (h2 : l.telehealth_available = none) :
    (mergeWebsiteData l wd).home_visits_available = none ∧
    (mergeWebsiteData l wd).telehealth_available = none ∧
    "home and hospital visits" ∉ featuresPhrases (mergeWebsiteData l wd) ∧
    "virtual consultations" ∉ featuresPhrases (mergeWebsiteData l wd) ∧
    (mergeWebsiteData l wd).home_visits =
      (if wd.scraped_successfully then
        (if wd.features.home_visits then some true else l.home_visits)
       else l.home_visits) ∧
    (mergeWebsiteData l wd).telehealth =
      (if wd.scraped_successfully then
        (if wd.features.telehealth then some true else l.telehealth)
       else l.telehealth) ∧
    (mergeWebsiteData l wd).avail_24_7 =
      (if wd.scraped_successfully then
        (if wd.features.avail_24_7 then some true else l.avail_24_7)
       else l.avail_24_7) := by
  have hh : (mergeWebsiteData l wd).home_visits_available = none := by
    cases h : wd.scraped_successfully <;> simp [mergeWebsiteData, h, h1]
  have ht : (mergeWebsiteData l wd).telehealth_available = none := by
    cases h : wd.scraped_successfully <;> simp [mergeWebsiteData, h, h2]
  refine ⟨hh, ht, ?_, ?_, ?_, ?_, ?_⟩
  · by_cases c1 : truthyOB (mergeWebsiteData l wd).no_win_no_fee <;>
      by_cases c2 : truthyOB (mergeWebsiteData l wd).free_consultation <;>
      simp [featuresPhrases, hh, ht, truthyOB, c1, c2]
  · by_cases c1 : truthyOB (mergeWebsiteData l wd).no_win_no_fee <;>
      by_cases c2 : truthyOB (mergeWebsiteData l wd).free_consultation <;>
      simp [featuresPhrases, hh, ht, truthyOB, c1, c2]
  · cases h : wd.scraped_successfully <;> simp [mergeWebsiteData, h]
  · cases h : wd.scraped_successfully <;> simp [mergeWebsiteData, h]
  · cases h : wd.scraped_successfully <;> simp [mergeWebsiteData, h]

/-- Record without the available-keys, for the C10 witness. -/
def bareRecord : Lawyer := { no_win_no_fee := some true }

/-- Successful extraction whose page signalled home visits, telehealth and
24/7 availability, for the C10 witness. -/
def homeSignalsResult : WebsiteData :=
  { scraped_successfully := true
    features := ⟨false, false, true, true, true⟩ }

/-- Witness for the C10 theorem at a concrete record and extraction result. -/
theorem merge_never_creates_available_keys_witness :
    (mergeWebsiteData bareRecord homeSignalsResult).home_visits_available = none ∧
    (mergeWebsiteData bareRecord homeSignalsResult).telehealth_available = none ∧
    "home and hospital visits" ∉
      featuresPhrases (mergeWebsiteData bareRecord homeSignalsResult) ∧
    "virtual consultations" ∉
      featuresPhrases (mergeWebsiteData bareRecord homeSignalsResult) ∧
    (mergeWebsiteData bareRecord homeSignalsResult).home_visits =
      (if homeSignalsResult.scraped_successfully then
        (if homeSignalsResult.features.home_visits then some true
         else bareRecord.home_visits)
       else bareRecord.home_visits) ∧
    (mergeWebsiteData bareRecord homeSignalsResult).telehealth =
      (if homeSignalsResult.scraped_successfully then
        (if homeSignalsResult.features.telehealth then some true
         else bareRecord.telehealth)
       else bareRecord.telehealth) ∧
    (mergeWebsiteData bareRecord homeSignalsResult).avail_24_7 =
      (if homeSignalsResult.scraped_successfully then
        (if homeSignalsResult.features.avail_24_7 then some true
         else bareRecord.avail_24_7)
       else bareRecord.avail_24_7) :=
  merge_never_creates_available_keys bareRecord homeSignalsResult rfl rfl

end Enrich
